import Mathlib

/-!
Verification of the podsync resolver (src/cmd/resolver/resolver.py).

The module is embedded shallowly: the DynamoDB stores and the
youtube-dl extraction engine are oracles supplied through an `Env`
record, Python exceptions become an `Err` sum returned through
`Except`, and the observable side effects (which store was touched,
whether the extraction engine was invoked, the new counter row)
are recorded in the `DownloadResult` record.
-/

/-- `ANONYMOUS_FEED_REQUESTS_LIMIT = 100` from the source. -/
def ANONYMOUS_FEED_REQUESTS_LIMIT : Nat := 100

/-- The exceptions the Python module can raise: its own `InvalidUsage`
and `QuotaExceeded`, plus the builtin `KeyError` (dict lookup miss),
`IndexError` (`ordered[0]` / `ordered[-1]` on an empty list),
`StopIteration` (`next` on an exhausted format selector) and
`ValueError` (the `undefined provider` branch). -/
inductive Err where
  | invalidUsage (msg : String)
  | quotaExceeded (msg : String)
  | keyError (key : String)
  | indexError
  | stopIteration
  | valueError (msg : String)
deriving DecidableEq, Repr

/-- Feed metadata row, lowercased keys as produced by `_get_metadata`
(`provider`, `format`, `quality`, `featurelevel`); `featurelevel` is
the result of the `int(...)` conversion in `download`. -/
structure FeedMetadata where
  provider : String
  format : String
  quality : String
  featurelevel : Int
deriving DecidableEq, Repr

/-- One candidate stream dict from `info['formats']` / the youtube-dl
format selector.  `url` and `fragment_base_url` are optional because
the code tests `'fragment_base_url' in selected` for presence. -/
structure Candidate where
  ext : String
  format_id : String
  width : Int
  url : Option String
  fragment_base_url : Option String
deriving DecidableEq, Repr

/-- One row of the `ResolveCounters` table for a fixed (FeedID, Day)
key: the `Count` and `Expires` attributes. -/
structure CounterEntry where
  count : Nat
  expires : Int
deriving DecidableEq, Repr

/-- Index of the last occurrence of `c` in `l`, counting from `i`
(helper for the `rfind` calls inside `os.path.splitext`). -/
def lastIdxFrom (c : Char) : List Char → Nat → Option Nat
  | [], _ => none
  | x :: xs, i =>
    match lastIdxFrom c xs (i + 1) with
    | some j => some j
    | none => if x = c then some i else none

/-- The root part of `os.path.splitext` (posix flavour, `sep = '/'`,
`extsep = '.'`): find the last dot after the last slash; the dot only
starts an extension when some character strictly between the start of
the basename and the dot differs from a dot (so a leading-dot name
such as `.mp4` has no extension and is returned whole). -/
def splitextRootL (l : List Char) : List Char :=
  let sepIdx : Int :=
    match lastIdxFrom '/' l 0 with
    | some i => (i : Int)
    | none => -1
  match lastIdxFrom '.' l 0 with
  | none => l
  | some d =>
    if sepIdx < (d : Int) then
      let start : Nat := (sepIdx + 1).toNat
      if ((l.drop start).take (d - start)).any (fun ch => ch != '.') then
        l.take d
      else l
    else l

/-- `os.path.splitext(s)[0]` on strings. -/
def splitextRoot (s : String) : String := String.mk (splitextRootL s.toList)

/-- The `url_formats` dict.  `none` models the `KeyError` a lookup of
an unknown provider raises. -/
def url_formats (provider : String) : Option String :=
  if provider = "youtube" then some "https://youtube.com/watch?v=\x7b\x7d"
  else if provider = "vimeo" then some "https://vimeo.com/\x7b\x7d"
  else none

/-- `str.format` with a single positional argument: every `\x7b\x7d`
placeholder in the template is replaced by `arg`. -/
def formatTplL : List Char → List Char → List Char
  | [], _ => []
  | '\x7b' :: '\x7d' :: rest, arg => arg ++ formatTplL rest arg
  | c :: rest, arg => c :: formatTplL rest arg

/-- `tpl.format(arg)` on strings. -/
def str_format (tpl arg : String) : String :=
  String.mk (formatTplL tpl.toList arg.toList)

/-- The atomic semantics of the `counter_table.update_item` call in
`_update_resolve_counter` for one (FeedID, Day) row:
`ADD #count :one SET #exp = if_not_exists(#exp, :ttl)` creates the
row with `Count = 1` and `Expires = ttl` when absent, and otherwise
adds 1 to `Count` and leaves `Expires` untouched. -/
def updateCounter (old : Option CounterEntry) (ttl : Int) : CounterEntry :=
  match old with
  | none => { count := 1, expires := ttl }
  | some e => { count := e.count + 1, expires := e.expires }

/-- A sequence of `_update_resolve_counter` calls against the same
(FeedID, Day) row, each with the ttl (`now + 3 months`) computed at
its own call time. -/
def iterUpdates (ttls : List Int) (old : Option CounterEntry) : Option CounterEntry :=
  ttls.foldl (fun o t => some (updateCounter o t)) old

/-- `Count` held by an optional counter row (0 when the row is absent). -/
def oldCount (e : Option CounterEntry) : Nat :=
  match e with
  | none => 0
  | some e => e.count

/-- The format-selector expression built by `_yt_choose_url` from the
stored format/quality flags. -/
def yt_fmt (metadata : FeedMetadata) : String :=
  if metadata.format = "video" then
    if metadata.quality = "high" then "best[ext=mp4]" else "worst[ext=mp4]"
  else
    if metadata.quality = "high" then "bestaudio" else "worstaudio"

/-- `_yt_choose_url`: take the first candidate produced by the engine
ranking (`rank`) for the built expression (`next` raises
`StopIteration` when it yields none), then prefer
`fragment_base_url` over `url`. -/
def _yt_choose_url (rank : String → List Candidate) (metadata : FeedMetadata) :
    Except Err String :=
  match rank (yt_fmt metadata) with
  | [] => .error .stopIteration
  | selected :: _ =>
    match selected.fragment_base_url with
    | some f => .ok f
    | none =>
      match selected.url with
      | some u => .ok u
      | none => .error (.keyError "url")

/-- `'http-'.startswith` test on character lists. -/
def isPrefixL : List Char → List Char → Bool
  | [], _ => true
  | _ :: _, [] => false
  | a :: as, b :: bs => a == b && isPrefixL as bs

/-- The list comprehension in `_vimeo_choose_url`: keep candidates
with extension `mp4` whose `format_id` starts with `http-`. -/
def vimeo_filter (formats : List Candidate) : List Candidate :=
  formats.filter (fun x => x.ext == "mp4" && isPrefixL "http-".toList x.format_id.toList)

/-- The comparison of `sorted(fmt_list, key=lambda x: x['width'],
reverse=True)`: descending by width. -/
def vimeo_le (a b : Candidate) : Bool := decide (b.width ≤ a.width)

/-- `_vimeo_choose_url`: filter, sort by width descending, then
`ordered[0]` for high quality and `ordered[-1]` otherwise
(`IndexError` on an empty list), returning the item's `url`. -/
def _vimeo_choose_url (formats : List Candidate) (metadata : FeedMetadata) :
    Except Err String :=
  match (if metadata.quality = "high" then
           ((vimeo_filter formats).mergeSort vimeo_le).head?
         else
           ((vimeo_filter formats).mergeSort vimeo_le).getLast?) with
  | none => .error .indexError
  | some item =>
    match item.url with
    | some u => .ok u
    | none => .error (.keyError "url")

/-- `_resolve`: reject an empty URL, call `ytdl.extract_info` (the
returned Bool records that the extraction engine was invoked), then
dispatch on the provider; an unrecognised provider raises
`ValueError('undefined provider')` after extraction. -/
def _resolve (rank : String → List Candidate) (formats : List Candidate)
    (url : String) (metadata : FeedMetadata) : Except Err String × Bool :=
  if url = "" then (.error (.invalidUsage "Invalid URL"), false)
  else if metadata.provider = "youtube" then (_yt_choose_url rank metadata, true)
  else if metadata.provider = "vimeo" then (_vimeo_choose_url formats metadata, true)
  else (.error (.valueError "undefined provider"), true)

/-- The external world of one `download` call: the feed's metadata row
(`feeds_table.get_item`, `none` when the item is missing), today's
counter row for the feed, the ttl the call would write, the engine's
ranking for a youtube format expression, and `info['formats']` for
vimeo. -/
structure Env where
  meta : Option FeedMetadata
  counter : Option CounterEntry
  ttl : Int
  rank : String → List Candidate
  formats : List Candidate

/-- Observable outcome of a `download` call: the returned URL or the
raised exception, the counter row after the call, and whether the
metadata store, the counter store and the extraction engine were
reached. -/
structure DownloadResult where
  result : Except Err String
  counter : Option CounterEntry
  metaAccessed : Bool
  counterAccessed : Bool
  extractInvoked : Bool

/-- The formatted `QuotaExceeded` message of the source. -/
def quotaMessage : String :=
  "Too many requests. Daily limit is 100. Consider upgrading account to get unlimited access"

/-- Steps of `download` after validation and metadata lookup: counter
increment, quota check, URL templating, `_resolve`. -/
def download_core (env : Env) (item : FeedMetadata) (vid : String) : DownloadResult :=
  if (updateCounter env.counter env.ttl).count > ANONYMOUS_FEED_REQUESTS_LIMIT
      ∧ item.featurelevel = 0 then
    { result := .error (.quotaExceeded quotaMessage),
      counter := some (updateCounter env.counter env.ttl),
      metaAccessed := true, counterAccessed := true, extractInvoked := false }
  else
    match url_formats item.provider with
    | none =>
      { result := .error (.keyError item.provider),
        counter := some (updateCounter env.counter env.ttl),
        metaAccessed := true, counterAccessed := true, extractInvoked := false }
    | some tpl =>
      if tpl = "" then
        { result := .error (.invalidUsage "Invalid feed"),
          counter := some (updateCounter env.counter env.ttl),
          metaAccessed := true, counterAccessed := true, extractInvoked := false }
      else
        { result := (_resolve env.rank env.formats (str_format tpl vid) item).1,
          counter := some (updateCounter env.counter env.ttl),
          metaAccessed := true, counterAccessed := true,
          extractInvoked := (_resolve env.rank env.formats (str_format tpl vid) item).2 }

/-- `download(feed_id, video_id)`: validate the ids (the video id
after `os.path.splitext`), fetch metadata (a missing item raises
`KeyError('Item')`), then run the core steps. -/
def download (env : Env) (feed_id video_id : String) : DownloadResult :=
  if feed_id = "" then
    { result := .error (.invalidUsage "Invalid feed id"), counter := env.counter,
      metaAccessed := false, counterAccessed := false, extractInvoked := false }
  else if splitextRoot video_id = "" then
    { result := .error (.invalidUsage "Invalid video id"), counter := env.counter,
      metaAccessed := false, counterAccessed := false, extractInvoked := false }
  else
    match env.meta with
    | none =>
      { result := .error (.keyError "Item"), counter := env.counter,
        metaAccessed := true, counterAccessed := false, extractInvoked := false }
    | some item => download_core env item (splitextRoot video_id)

/-- Is this outcome a raised `QuotaExceeded`? -/
def isQuotaExceededE : Except Err String → Bool
  | .error (.quotaExceeded _) => true
  | _ => false

/-- Is this outcome a raised `InvalidUsage`? -/
def isInvalidUsageE : Except Err String → Bool
  | .error (.invalidUsage _) => true
  | _ => false

/-- Is this outcome a raised `ValueError`? -/
def isValueErrorE : Except Err String → Bool
  | .error (.valueError _) => true
  | _ => false

deriving instance DecidableEq for Except

/-- Sample mp4 video candidate with a direct URL. -/
def cand22 : Candidate :=
  { ext := "mp4", format_id := "22", width := 1280,
    url := some "https://cdn.example/v.mp4", fragment_base_url := none }

/-- Sample audio candidate with a direct URL. -/
def candAudio : Candidate :=
  { ext := "m4a", format_id := "140", width := 0,
    url := some "https://cdn.example/a.m4a", fragment_base_url := none }

/-- Sample candidate exposing only a fragment-base URL. -/
def candFrag : Candidate :=
  { ext := "mp4", format_id := "sb0", width := 0, url := none,
    fragment_base_url := some "https://frag.example/base" }

/-- Sample vimeo candidate of a given width. -/
def vimeoCand (w : Int) (u : String) : Candidate :=
  { ext := "mp4", format_id := "http-720p", width := w, url := some u,
    fragment_base_url := none }

/-- Engine ranking that returns `cand22` for the best-mp4 expression. -/
def rankBest : String → List Candidate :=
  fun s => if s = "best[ext=mp4]" then [cand22] else []

/-- Engine ranking that always returns the fragment-only candidate. -/
def rank5 : String → List Candidate := fun _ => [candFrag]

/-- Engine ranking that only answers the worst-audio expression. -/
def rankWorstAudio : String → List Candidate :=
  fun s => if s = "worstaudio" then [candAudio] else []

/-- Sample metadata: youtube, video, high quality, free tier. -/
def m5 : FeedMetadata :=
  { provider := "youtube", format := "video", quality := "high", featurelevel := 0 }

/-- Environment: free-tier youtube feed with 5 prior requests today. -/
def env0 : Env :=
  { meta := some m5,
    counter := some { count := 5, expires := 123 },
    ttl := 999, rank := rankBest, formats := [] }

/-- Sample metadata with the unrecognized provider `dailymotion`. -/
def mDM : FeedMetadata :=
  { provider := "dailymotion", format := "video", quality := "high", featurelevel := 1 }

/-- Environment whose stored provider is the unrecognized `dailymotion`. -/
def envDM : Env :=
  { meta := some mDM, counter := none, ttl := 0, rank := fun _ => [], formats := [] }

/-- Sample metadata: youtube, video, high quality, paid tier. -/
def m7 : FeedMetadata :=
  { provider := "youtube", format := "video", quality := "high", featurelevel := 1 }

/-- Environment: paid-tier youtube feed, fresh counter, working engine. -/
def env7 : Env :=
  { meta := some m7, counter := none, ttl := 0, rank := rankBest, formats := [] }

/-- Sample metadata whose format/quality are outside the recognized enums. -/
def m8 : FeedMetadata :=
  { provider := "youtube", format := "webm", quality := "medium", featurelevel := 1 }

/-- Environment storing the out-of-enum format/quality metadata. -/
def env8 : Env :=
  { meta := some m8, counter := none, ttl := 0, rank := rankWorstAudio, formats := [] }

/-- Concrete vimeo candidate list with widths 1920, 1280, 640. -/
def vimeoFormats : List Candidate :=
  [vimeoCand 1920 "https://vimeo.example/1920.mp4",
   vimeoCand 1280 "https://vimeo.example/1280.mp4",
   vimeoCand 640 "https://vimeo.example/640.mp4"]

/-- Sample metadata: vimeo, video, high quality, paid tier. -/
def mVimeo : FeedMetadata :=
  { provider := "vimeo", format := "video", quality := "high", featurelevel := 1 }

example : splitextRoot ".mp4" = ".mp4" := by decide
example : splitextRoot "xyz123.mp4" = "xyz123" := by decide
example : splitextRoot "" = "" := by decide
example : splitextRoot "a/b.c/.bashrc" = "a/b.c/.bashrc" := by decide
example : str_format "https://vimeo.com/\x7b\x7d" "abc" = "https://vimeo.com/abc" := by decide
example : url_formats "dailymotion" = none := by decide

/-- `download` reduces to `download_core` once both ids validate and the
metadata item exists. -/
theorem download_eq_core (env : Env) (fid vid : String) (m : FeedMetadata)
    (hf : ¬fid = "") (hv : ¬splitextRoot vid = "") (hm : env.meta = some m) :
    download env fid vid = download_core env m (splitextRoot vid) := by
  unfold download
  rw [if_neg hf, if_neg hv, hm]

/-- `_yt_choose_url` only ever yields a URL, `StopIteration`, or
`KeyError('url')`. -/
theorem yt_choose_classify (rank : String → List Candidate) (m : FeedMetadata) :
    isQuotaExceededE (_yt_choose_url rank m) = false
    ∧ isInvalidUsageE (_yt_choose_url rank m) = false
    ∧ isValueErrorE (_yt_choose_url rank m) = false := by
  unfold _yt_choose_url
  refine ⟨?_, ?_, ?_⟩ <;> (repeat' split) <;> rfl

/-- `_vimeo_choose_url` only ever yields a URL, `IndexError`, or
`KeyError('url')`. -/
theorem vimeo_choose_classify (formats : List Candidate) (m : FeedMetadata) :
    isQuotaExceededE (_vimeo_choose_url formats m) = false
    ∧ isInvalidUsageE (_vimeo_choose_url formats m) = false
    ∧ isValueErrorE (_vimeo_choose_url formats m) = false := by
  unfold _vimeo_choose_url
  refine ⟨?_, ?_, ?_⟩ <;> (repeat' split) <;> rfl

/-- An outcome with a false `InvalidUsage` flag is no `InvalidUsage`. -/
theorem ne_invalid_of_flag {r : Except Err String} (h : isInvalidUsageE r = false)
    (msg : String) : r ≠ .error (.invalidUsage msg) := by
  intro he; subst he; simp [isInvalidUsageE] at h

/-- An outcome with a false `ValueError` flag is no `ValueError`. -/
theorem ne_value_of_flag {r : Except Err String} (h : isValueErrorE r = false)
    (msg : String) : r ≠ .error (.valueError msg) := by
  intro he; subst he; simp [isValueErrorE] at h

/-- `_resolve` never raises `QuotaExceeded`. -/
theorem resolve_not_quota (rank : String → List Candidate) (formats : List Candidate)
    (url : String) (m : FeedMetadata) :
    isQuotaExceededE (_resolve rank formats url m).1 = false := by
  unfold _resolve
  repeat' split
  all_goals
    first
      | rfl
      | exact (yt_choose_classify rank m).1
      | exact (vimeo_choose_classify formats m).1

/-- Both url_formats templates are non-empty strings. -/
theorem url_formats_nonempty (p tpl : String) (h : url_formats p = some tpl) :
    ¬(tpl = "") := by
  unfold url_formats at h
  split at h
  · injection h with h; subst h; decide
  · split at h
    · injection h with h; subst h; decide
    · exact Option.noConfusion h

/-- A successful url_formats lookup pins the provider down to youtube
or vimeo. -/
theorem url_formats_some_provider (p tpl : String) (h : url_formats p = some tpl) :
    p = "youtube" ∨ p = "vimeo" := by
  unfold url_formats at h
  split at h
  · next hp => exact Or.inl hp
  · split at h
    · next hp => exact Or.inr hp
    · exact Option.noConfusion h

/-- When the provider is youtube or vimeo, `_resolve` hits neither the
`Invalid feed` nor the `undefined provider` branch. -/
theorem resolve_no_dead (rank : String → List Candidate) (formats : List Candidate)
    (url : String) (m : FeedMetadata)
    (hp : m.provider = "youtube" ∨ m.provider = "vimeo") :
    (_resolve rank formats url m).1 ≠ .error (.invalidUsage "Invalid feed")
    ∧ (_resolve rank formats url m).1 ≠ .error (.valueError "undefined provider") := by
  unfold _resolve
  split
  · exact ⟨by decide, by decide⟩
  · split
    · exact ⟨ne_invalid_of_flag (yt_choose_classify rank m).2.1 _,
             ne_value_of_flag (yt_choose_classify rank m).2.2 _⟩
    · split
      · exact ⟨ne_invalid_of_flag (vimeo_choose_classify formats m).2.1 _,
               ne_value_of_flag (vimeo_choose_classify formats m).2.2 _⟩
      · rcases hp with hp | hp <;> simp_all

/-- `download_core` hits neither dead branch. -/
theorem core_no_dead (env : Env) (item : FeedMetadata) (v : String) :
    (download_core env item v).result ≠ .error (.invalidUsage "Invalid feed")
    ∧ (download_core env item v).result ≠ .error (.valueError "undefined provider") := by
  unfold download_core
  split
  · refine ⟨?_, ?_⟩ <;> (dsimp only) <;> decide
  · split
    · refine ⟨?_, ?_⟩ <;> simp
    · next tpl htpl =>
      rw [if_neg (url_formats_nonempty item.provider tpl htpl)]
      exact resolve_no_dead env.rank env.formats (str_format tpl v) item
        (url_formats_some_provider item.provider tpl htpl)

/-- After a sequence of increments on an existing row, `Count` has
grown by the number of increments and `Expires` is unchanged. -/
theorem iterUpdates_some (ttls : List Int) : ∀ e : CounterEntry,
    iterUpdates ttls (some e) =
      some { count := e.count + ttls.length, expires := e.expires } := by
  induction ttls with
  | nil => intro e; rfl
  | cons t ts ih =>
    intro e
    show iterUpdates ts (some (updateCounter (some e) t)) = _
    rw [ih]
    simp only [updateCounter, List.length_cons, Option.some.injEq, CounterEntry.mk.injEq]
    exact ⟨by omega, trivial⟩

/-- C3: for every (feedId, day) key, after N increments in the same UTC
day the counter value equals exactly N, and the Expires attribute
equals the expiry value supplied at the first increment of that day,
unchanged by increments 2 through N. -/
theorem counter_invariant_c3 (t0 : Int) (ts : List Int) :
    iterUpdates (t0 :: ts) none = some { count := ts.length + 1, expires := t0 } := by
  show iterUpdates ts (some (updateCounter none t0)) = _
  rw [iterUpdates_some]
  simp only [updateCounter, Option.some.injEq, CounterEntry.mk.injEq]
  exact ⟨by omega, trivial⟩

/-- When the engine ranking yields a first candidate, `_yt_choose_url`
reduces to the fragment-base / url preference on that candidate. -/
theorem yt_choose_cons (rank : String → List Candidate) (m : FeedMetadata)
    (c : Candidate) (rest : List Candidate) (hr : rank (yt_fmt m) = c :: rest) :
    _yt_choose_url rank m =
      (match c.fragment_base_url with
       | some f => .ok f
       | none =>
         match c.url with
         | some u => .ok u
         | none => .error (.keyError "url")) := by
  unfold _yt_choose_url
  rw [hr]

/-- C5: for the youtube strategy, once a candidate has been selected,
a present `fragment_base_url` field is returned, and otherwise the
candidate's `url` field is returned. -/
theorem yt_result_preference_c5 (rank : String → List Candidate) (m : FeedMetadata)
    (c : Candidate) (rest : List Candidate) (hr : rank (yt_fmt m) = c :: rest) :
    (∀ f, c.fragment_base_url = some f → _yt_choose_url rank m = .ok f)
    ∧ (c.fragment_base_url = none → ∀ u, c.url = some u → _yt_choose_url rank m = .ok u) := by
  rw [yt_choose_cons rank m c rest hr]
  constructor
  · intro f hf
    rw [hf]
  · intro hn u hu
    rw [hn, hu]

/-- C5 witness: a fragment-only candidate returns the fragment-base
value. -/
theorem yt_result_preference_c5_witness :
    (∀ f, candFrag.fragment_base_url = some f → _yt_choose_url rank5 m5 = .ok f)
    ∧ (candFrag.fragment_base_url = none →
        ∀ u, candFrag.url = some u → _yt_choose_url rank5 m5 = .ok u) :=
  yt_result_preference_c5 rank5 m5 candFrag [] rfl

/-- C9: format selection is deterministic — two runs of the selection
step on the same candidate list, provider, format, and quality return
the same URL, and the candidate list is left unchanged. -/
theorem selection_deterministic_c9 (rankA rankB : String → List Candidate)
    (fA fB : List Candidate) (uA uB : String) (mA mB : FeedMetadata)
    (hr : rankA = rankB) (hf : fA = fB) (hu : uA = uB) (hm : mA = mB) :
    _resolve rankA fA uA mA = _resolve rankB fB uB mB ∧ fA = fB := by
  subst hr; subst hf; subst hu; subst hm
  exact ⟨rfl, rfl⟩

/-- C9 witness at concrete inputs. -/
theorem selection_deterministic_c9_witness :
    _resolve rank5 [] "u" m5 = _resolve rank5 [] "u" m5 ∧ ([] : List Candidate) = [] :=
  selection_deterministic_c9 rank5 rank5 [] [] "u" "u" m5 m5 rfl rfl rfl rfl

/-- C10: the `InvalidUsage('Invalid feed')` raise guarded by
`if not tpl` and the `ValueError('undefined provider')` branch of
`_resolve` are unreachable on every call path through `download`. -/
theorem dead_branches_c10 (env : Env) (fid vid : String) :
    (download env fid vid).result ≠ .error (.invalidUsage "Invalid feed")
    ∧ (download env fid vid).result ≠ .error (.valueError "undefined provider") := by
  unfold download
  split
  · refine ⟨?_, ?_⟩ <;> (dsimp only) <;> decide
  · split
    · refine ⟨?_, ?_⟩ <;> (dsimp only) <;> decide
    · split
      · refine ⟨?_, ?_⟩ <;> (dsimp only) <;> decide
      · exact core_no_dead env _ _

/-- In the quota branch `download_core` raises `QuotaExceeded`. -/
theorem core_quota_pos (env : Env) (item : FeedMetadata) (v : String)
    (h : (updateCounter env.counter env.ttl).count > ANONYMOUS_FEED_REQUESTS_LIMIT
          ∧ item.featurelevel = 0) :
    (download_core env item v).result = .error (.quotaExceeded quotaMessage) := by
  unfold download_core
  rw [if_pos h]

/-- Outside the quota branch `download_core` never raises
`QuotaExceeded`. -/
theorem core_quota_neg (env : Env) (item : FeedMetadata) (v : String)
    (h : ¬((updateCounter env.counter env.ttl).count > ANONYMOUS_FEED_REQUESTS_LIMIT
          ∧ item.featurelevel = 0)) :
    isQuotaExceededE (download_core env item v).result = false := by
  unfold download_core
  rw [if_neg h]
  split
  · rfl
  · split
    · rfl
    · exact resolve_not_quota env.rank env.formats _ item

/-- `download_core` raises `QuotaExceeded` exactly when the
post-increment count exceeds the limit on a level-0 feed. -/
theorem core_quota_iff (env : Env) (item : FeedMetadata) (v : String) :
    isQuotaExceededE (download_core env item v).result = true ↔
      ((updateCounter env.counter env.ttl).count > ANONYMOUS_FEED_REQUESTS_LIMIT
        ∧ item.featurelevel = 0) := by
  by_cases h : (updateCounter env.counter env.ttl).count > ANONYMOUS_FEED_REQUESTS_LIMIT
      ∧ item.featurelevel = 0
  · rw [core_quota_pos env item v h]
    simp [isQuotaExceededE, h]
  · rw [core_quota_neg env item v h]
    simp [h]

/-- Every branch of `download_core` stores the incremented counter. -/
theorem core_counter (env : Env) (item : FeedMetadata) (v : String) :
    (download_core env item v).counter = some (updateCounter env.counter env.ttl) := by
  unfold download_core
  repeat' split
  all_goals rfl

/-- C1: for a feed with featureLevel 0 the resolution raises
QuotaExceeded exactly when the post-increment daily counter value
exceeds 100, and for featureLevel greater than 0 it never raises
QuotaExceeded. -/
theorem quota_rule_c1 (env : Env) (fid vid : String) (m : FeedMetadata)
    (hf : ¬fid = "") (hv : ¬splitextRoot vid = "") (hm : env.meta = some m) :
    (m.featurelevel = 0 →
      (isQuotaExceededE (download env fid vid).result = true ↔
        (updateCounter env.counter env.ttl).count > ANONYMOUS_FEED_REQUESTS_LIMIT))
    ∧ (m.featurelevel > 0 →
        isQuotaExceededE (download env fid vid).result = false) := by
  rw [download_eq_core env fid vid m hf hv hm]
  constructor
  · intro h0
    rw [core_quota_iff env m (splitextRoot vid)]
    simp [h0]
  · intro hpos
    exact core_quota_neg env m (splitextRoot vid)
      (fun hc => absurd hc.2 (by omega))

/-- C1 witness at a concrete free-tier environment. -/
theorem quota_rule_c1_witness :
    (m5.featurelevel = 0 →
      (isQuotaExceededE (download env0 "abc" "xyz").result = true ↔
        (updateCounter env0.counter env0.ttl).count > ANONYMOUS_FEED_REQUESTS_LIMIT))
    ∧ (m5.featurelevel > 0 →
        isQuotaExceededE (download env0 "abc" "xyz").result = false) :=
  quota_rule_c1 env0 "abc" "xyz" m5 (by decide) (by decide) rfl

/-- C2: every attempt that reaches the quota step increments the
per-(feed, day) counter by exactly 1 before the limit check, so even
an attempt failing with QuotaExceeded leaves the counter incremented,
and the error triggers at post-increment count 101, not 100. -/
theorem counter_increment_c2 (env : Env) (fid vid : String) (m : FeedMetadata)
    (hf : ¬fid = "") (hv : ¬splitextRoot vid = "") (hm : env.meta = some m) :
    (download env fid vid).counter = some (updateCounter env.counter env.ttl)
    ∧ (updateCounter env.counter env.ttl).count = oldCount env.counter + 1
    ∧ (m.featurelevel = 0 →
        (isQuotaExceededE (download env fid vid).result = true ↔
          oldCount env.counter + 1 > ANONYMOUS_FEED_REQUESTS_LIMIT)) := by
  rw [download_eq_core env fid vid m hf hv hm]
  have hcount : (updateCounter env.counter env.ttl).count = oldCount env.counter + 1 := by
    rcases henv : env.counter with _ | e <;> simp [updateCounter, oldCount]
  refine ⟨core_counter env m (splitextRoot vid), hcount, ?_⟩
  intro h0
  rw [core_quota_iff env m (splitextRoot vid), hcount]
  simp [h0]

/-- C2 witness at a concrete free-tier environment. -/
theorem counter_increment_c2_witness :
    (download env0 "abc" "xyz").counter = some (updateCounter env0.counter env0.ttl)
    ∧ (updateCounter env0.counter env0.ttl).count = oldCount env0.counter + 1
    ∧ (m5.featurelevel = 0 →
        (isQuotaExceededE (download env0 "abc" "xyz").result = true ↔
          oldCount env0.counter + 1 > ANONYMOUS_FEED_REQUESTS_LIMIT)) :=
  counter_increment_c2 env0 "abc" "xyz" m5 (by decide) (by decide) rfl

/-- C6 counterexample: with stored provider `dailymotion` the code
raises `KeyError('dailymotion')`, not `InvalidUsage` (the extraction
engine is still never invoked). -/
theorem unknown_provider_counterexample_c6 :
    (download envDM "abc" "xyz").result = .error (.keyError "dailymotion")
    ∧ isInvalidUsageE (download envDM "abc" "xyz").result = false
    ∧ (download envDM "abc" "xyz").extractInvoked = false := by
  refine ⟨?_, ?_, ?_⟩ <;> decide

/-- C6 amended: an unrecognized provider makes the resolution fail
without ever invoking the extraction engine; unless the quota trips
first, the failure is the provider-key lookup error (`KeyError`), not
`InvalidUsage`. -/
theorem unknown_provider_amended_c6 (env : Env) (fid vid : String) (m : FeedMetadata)
    (hf : ¬fid = "") (hv : ¬splitextRoot vid = "") (hm : env.meta = some m)
    (hp1 : ¬m.provider = "youtube") (hp2 : ¬m.provider = "vimeo") :
    (download env fid vid).extractInvoked = false
    ∧ (¬((updateCounter env.counter env.ttl).count > ANONYMOUS_FEED_REQUESTS_LIMIT
          ∧ m.featurelevel = 0) →
        (download env fid vid).result = .error (.keyError m.provider)) := by
  rw [download_eq_core env fid vid m hf hv hm]
  have hu : url_formats m.provider = none := by
    unfold url_formats
    rw [if_neg hp1, if_neg hp2]
  constructor
  · unfold download_core
    rw [hu]
    split
    · rfl
    · rfl
  · intro hq
    unfold download_core
    rw [if_neg hq, hu]

/-- C6 amended witness at the `dailymotion` environment. -/
theorem unknown_provider_amended_c6_witness :
    (download envDM "abc" "xyz").extractInvoked = false
    ∧ (¬((updateCounter envDM.counter envDM.ttl).count > ANONYMOUS_FEED_REQUESTS_LIMIT
          ∧ mDM.featurelevel = 0) →
        (download envDM "abc" "xyz").result = .error (.keyError mDM.provider)) :=
  unknown_provider_amended_c6 envDM "abc" "xyz" mDM (by decide) (by decide) rfl
    (by decide) (by decide)

/-- C7 counterexample: `os.path.splitext` keeps a leading-dot name
whole, so videoId `.mp4` passes validation, both stores are reached,
and with a working engine the call returns a URL instead of raising
`InvalidUsage`. -/
theorem splitext_counterexample_c7 :
    splitextRoot ".mp4" = ".mp4"
    ∧ (download env7 "abc" ".mp4").metaAccessed = true
    ∧ (download env7 "abc" ".mp4").counterAccessed = true
    ∧ isInvalidUsageE (download env7 "abc" ".mp4").result = false
    ∧ (download env7 "abc" ".mp4").result = .ok "https://cdn.example/v.mp4" := by
  refine ⟨?_, ?_, ?_, ?_, ?_⟩ <;> decide

/-- C7 amended: an empty feedId, or a videoId that is empty after
extension stripping, fails with InvalidUsage before any access to the
metadata or counter store; a leading-dot-only name such as `.mp4` is
not stripped, so it is non-empty and passes this validation. -/
theorem input_validation_amended_c7 (env : Env) (fid vid : String)
    (h : fid = "" ∨ splitextRoot vid = "") :
    isInvalidUsageE (download env fid vid).result = true
    ∧ (download env fid vid).metaAccessed = false
    ∧ (download env fid vid).counterAccessed = false := by
  unfold download
  rcases h with h | h
  · rw [if_pos h]
    exact ⟨rfl, rfl, rfl⟩
  · by_cases hfe : fid = ""
    · rw [if_pos hfe]
      exact ⟨rfl, rfl, rfl⟩
    · rw [if_neg hfe, if_pos h]
      exact ⟨rfl, rfl, rfl⟩

/-- C7 amended witness: the empty feed id. -/
theorem input_validation_amended_c7_witness :
    isInvalidUsageE (download env7 "" "xyz").result = true
    ∧ (download env7 "" "xyz").metaAccessed = false
    ∧ (download env7 "" "xyz").counterAccessed = false :=
  input_validation_amended_c7 env7 "" "xyz" (Or.inl rfl)

/-- C8 counterexample: with stored format `webm` and quality `medium`
the selection silently takes the worst-audio branch and succeeds; no
`InvalidUsage` is raised. -/
theorem format_default_counterexample_c8 :
    isInvalidUsageE (download env8 "abc" "xyz").result = false
    ∧ (download env8 "abc" "xyz").result = .ok "https://cdn.example/a.m4a"
    ∧ yt_fmt m8 = "worstaudio" := by
  refine ⟨?_, ?_, ?_⟩ <;> decide
/-- The descending-width comparison is transitive. -/
theorem vimeo_le_trans (a b c : Candidate)
    (hab : vimeo_le a b = true) (hbc : vimeo_le b c = true) : vimeo_le a c = true := by
  simp only [vimeo_le, decide_eq_true_eq] at *
  omega

/-- The descending-width comparison is total. -/
theorem vimeo_le_total (a b : Candidate) : (vimeo_le a b || vimeo_le b a) = true := by
  simp only [vimeo_le, Bool.or_eq_true, decide_eq_true_eq]
  omega

/-- The head of a descending-sorted list has maximal width. -/
theorem pairwise_head?_max {l : List Candidate}
    (hp : l.Pairwise (fun a b => vimeo_le a b = true))
    {c : Candidate} (hl : l.head? = some c) : ∀ x ∈ l, x.width ≤ c.width := by
  cases l with
  | nil => cases hl
  | cons a t =>
    injection hl with hl
    subst hl
    intro x hx
    rcases List.mem_cons.mp hx with hx | hx
    · subst hx
      exact le_refl _
    · have h := (List.pairwise_cons.mp hp).1 x hx
      simpa [vimeo_le] using h

/-- An element delivered by `getLast?` is a member of the list. -/
theorem mem_of_getLast?_eq {α : Type} {l : List α} {c : α}
    (h : l.getLast? = some c) : c ∈ l := by
  rcases List.mem_getLast?_eq_getLast (Option.mem_def.mpr h) with ⟨hne, hc⟩
  rw [hc]
  exact List.getLast_mem hne

/-- The last element of a descending-sorted list has minimal width. -/
theorem pairwise_getLast?_min : ∀ {l : List Candidate},
    l.Pairwise (fun a b => vimeo_le a b = true) →
    ∀ {c : Candidate}, l.getLast? = some c → ∀ x ∈ l, c.width ≤ x.width := by
  intro l
  induction l with
  | nil => intro _ c hl; cases hl
  | cons a t ih =>
    intro hp c hl x hx
    cases t with
    | nil =>
      injection hl with hl
      subst hl
      rcases List.mem_cons.mp hx with hx | hx
      · subst hx
        exact le_refl _
      · cases hx
    | cons b t2 =>
      rw [List.getLast?_cons_cons] at hl
      have hp' := List.pairwise_cons.mp hp
      rcases List.mem_cons.mp hx with hx | hx
      · subst hx
        have h := hp'.1 c (mem_of_getLast?_eq hl)
        simpa [vimeo_le] using h
      · exact ih hp'.2 hl x hx

/-- C4: the vimeo strategy filters candidates to extension mp4 with a
format id starting with `http-`, sorts them by width descending, and
returns the url of the widest element for quality high and of the
narrowest element otherwise; an empty filtered set fails with an
IndexError rather than returning a default. -/
theorem vimeo_strategy_c4 (formats : List Candidate) (m : FeedMetadata)
    (hu : ∀ c ∈ formats, c.url.isSome = true) :
    (∀ c, c ∈ vimeo_filter formats ↔
      (c ∈ formats ∧ c.ext = "mp4" ∧ isPrefixL "http-".toList c.format_id.toList = true))
    ∧ (vimeo_filter formats = [] → _vimeo_choose_url formats m = .error .indexError)
    ∧ (m.quality = "high" → ¬vimeo_filter formats = [] →
        ∃ c, c ∈ vimeo_filter formats ∧ (∀ x ∈ vimeo_filter formats, x.width ≤ c.width) ∧
          _vimeo_choose_url formats m = .ok (c.url.getD ""))
    ∧ (¬m.quality = "high" → ¬vimeo_filter formats = [] →
        ∃ c, c ∈ vimeo_filter formats ∧ (∀ x ∈ vimeo_filter formats, c.width ≤ x.width) ∧
          _vimeo_choose_url formats m = .ok (c.url.getD "")) := by
  have hperm := List.mergeSort_perm (vimeo_filter formats) vimeo_le
  have hpair := List.sorted_mergeSort vimeo_le_trans vimeo_le_total (vimeo_filter formats)
  refine ⟨?_, ?_, ?_, ?_⟩
  · intro c
    simp [vimeo_filter, List.mem_filter, and_assoc]
  · intro h
    unfold _vimeo_choose_url
    rw [h]
    by_cases hq : m.quality = "high"
    · rw [if_pos hq, List.mergeSort_nil]
      rfl
    · rw [if_neg hq, List.mergeSort_nil]
      rfl
  · intro hq hne
    rcases hcons : (vimeo_filter formats).mergeSort vimeo_le with _ | ⟨c, rest⟩
    · rw [hcons] at hperm
      exact absurd hperm.symm.eq_nil hne
    · have hcmem : c ∈ vimeo_filter formats := by
        rw [← hperm.mem_iff, hcons]
        exact List.mem_cons_self c rest
      have hmax : ∀ x ∈ vimeo_filter formats, x.width ≤ c.width := by
        intro x hx
        exact pairwise_head?_max hpair (by rw [hcons]; rfl) x (hperm.mem_iff.mpr hx)
      obtain ⟨u, hu_eq⟩ :=
        Option.isSome_iff_exists.mp (hu c (List.mem_filter.mp hcmem).1)
      refine ⟨c, hcmem, hmax, ?_⟩
      unfold _vimeo_choose_url
      rw [if_pos hq, hcons, List.head?_cons, hu_eq]
      simp [hu_eq]
  · intro hq hne
    have hne2 : (vimeo_filter formats).mergeSort vimeo_le ≠ [] := by
      intro h0
      rw [h0] at hperm
      exact hne hperm.symm.eq_nil
    obtain ⟨c, hlast⟩ : ∃ c, ((vimeo_filter formats).mergeSort vimeo_le).getLast? = some c :=
      ⟨_, List.getLast?_eq_getLast_of_ne_nil hne2⟩
    have hcmem : c ∈ vimeo_filter formats :=
      hperm.mem_iff.mp (mem_of_getLast?_eq hlast)
    have hmin : ∀ x ∈ vimeo_filter formats, c.width ≤ x.width := by
      intro x hx
      exact pairwise_getLast?_min hpair hlast x (hperm.mem_iff.mpr hx)
    obtain ⟨u, hu_eq⟩ :=
      Option.isSome_iff_exists.mp (hu c (List.mem_filter.mp hcmem).1)
    refine ⟨c, hcmem, hmin, ?_⟩
    unfold _vimeo_choose_url
    rw [if_neg hq, hlast, hu_eq]
    simp [hu_eq]

/-- C4 witness at the 1920/1280/640 candidate list. -/
theorem vimeo_strategy_c4_witness :
    (∀ c, c ∈ vimeo_filter vimeoFormats ↔
      (c ∈ vimeoFormats ∧ c.ext = "mp4" ∧ isPrefixL "http-".toList c.format_id.toList = true))
    ∧ (vimeo_filter vimeoFormats = [] →
        _vimeo_choose_url vimeoFormats mVimeo = .error .indexError)
    ∧ (mVimeo.quality = "high" → ¬vimeo_filter vimeoFormats = [] →
        ∃ c, c ∈ vimeo_filter vimeoFormats
          ∧ (∀ x ∈ vimeo_filter vimeoFormats, x.width ≤ c.width)
          ∧ _vimeo_choose_url vimeoFormats mVimeo = .ok (c.url.getD ""))
    ∧ (¬mVimeo.quality = "high" → ¬vimeo_filter vimeoFormats = [] →
        ∃ c, c ∈ vimeo_filter vimeoFormats
          ∧ (∀ x ∈ vimeo_filter vimeoFormats, c.width ≤ x.width)
          ∧ _vimeo_choose_url vimeoFormats mVimeo = .ok (c.url.getD "")) :=
  vimeo_strategy_c4 vimeoFormats mVimeo (by decide)

/-- On a non-high quality value, `_vimeo_choose_url` takes the low
branch: the url of a narrowest filtered candidate. -/
theorem vimeo_low_branch (formats : List Candidate) (m : FeedMetadata)
    (hq : ¬m.quality = "high") (hne : ¬vimeo_filter formats = [])
    (hu : ∀ c ∈ formats, c.url.isSome = true) :
    ∃ c, c ∈ vimeo_filter formats ∧ (∀ x ∈ vimeo_filter formats, c.width ≤ x.width) ∧
      _vimeo_choose_url formats m = .ok (c.url.getD "") := by
  have hperm := List.mergeSort_perm (vimeo_filter formats) vimeo_le
  have hpair := List.sorted_mergeSort vimeo_le_trans vimeo_le_total (vimeo_filter formats)
  have hne2 : (vimeo_filter formats).mergeSort vimeo_le ≠ [] := by
    intro h0
    rw [h0] at hperm
    exact hne hperm.symm.eq_nil
  obtain ⟨c, hlast⟩ : ∃ c, ((vimeo_filter formats).mergeSort vimeo_le).getLast? = some c :=
    ⟨_, List.getLast?_eq_getLast_of_ne_nil hne2⟩
  have hcmem : c ∈ vimeo_filter formats := hperm.mem_iff.mp (mem_of_getLast?_eq hlast)
  have hmin : ∀ x ∈ vimeo_filter formats, c.width ≤ x.width := by
    intro x hx
    exact pairwise_getLast?_min hpair hlast x (hperm.mem_iff.mpr hx)
  obtain ⟨u, hu_eq⟩ := Option.isSome_iff_exists.mp (hu c (List.mem_filter.mp hcmem).1)
  refine ⟨c, hcmem, hmin, ?_⟩
  unfold _vimeo_choose_url
  rw [if_neg hq, hlast, hu_eq]
  simp [hu_eq]

/-- C8 amended: a stored format value other than `video` falls through
to the audio branch, and, independently, a stored quality value other
than `high` falls through to the low branch (worst selector expression
for youtube, narrowest filtered candidate for vimeo); the selection
step silently defaults and never fails with `InvalidUsage`. -/
theorem format_default_amended_c8 (rank : String → List Candidate)
    (formats : List Candidate) (m : FeedMetadata) :
    (¬m.format = "video" →
      yt_fmt m = (if m.quality = "high" then "bestaudio" else "worstaudio"))
    ∧ (¬m.quality = "high" →
        (yt_fmt m = (if m.format = "video" then "worst[ext=mp4]" else "worstaudio")
         ∧ (¬vimeo_filter formats = [] →
             (∀ c ∈ formats, c.url.isSome = true) →
             ∃ c, c ∈ vimeo_filter formats
               ∧ (∀ x ∈ vimeo_filter formats, c.width ≤ x.width)
               ∧ _vimeo_choose_url formats m = .ok (c.url.getD ""))))
    ∧ isInvalidUsageE (_yt_choose_url rank m) = false
    ∧ isInvalidUsageE (_vimeo_choose_url formats m) = false := by
  refine ⟨?_, ?_, (yt_choose_classify rank m).2.1, (vimeo_choose_classify formats m).2.1⟩
  · intro hfm
    simp [yt_fmt, hfm]
  · intro hq
    refine ⟨by simp [yt_fmt, hq], fun hne hu => vimeo_low_branch formats m hq hne hu⟩

/-- C8 amended witness at the out-of-enum metadata and the concrete
vimeo candidate list. -/
theorem format_default_amended_c8_witness :
    (¬m8.format = "video" →
      yt_fmt m8 = (if m8.quality = "high" then "bestaudio" else "worstaudio"))
    ∧ (¬m8.quality = "high" →
        (yt_fmt m8 = (if m8.format = "video" then "worst[ext=mp4]" else "worstaudio")
         ∧ (¬vimeo_filter vimeoFormats = [] →
             (∀ c ∈ vimeoFormats, c.url.isSome = true) →
             ∃ c, c ∈ vimeo_filter vimeoFormats
               ∧ (∀ x ∈ vimeo_filter vimeoFormats, c.width ≤ x.width)
               ∧ _vimeo_choose_url vimeoFormats m8 = .ok (c.url.getD ""))))
    ∧ isInvalidUsageE (_yt_choose_url rankWorstAudio m8) = false
    ∧ isInvalidUsageE (_vimeo_choose_url vimeoFormats m8) = false :=
  format_default_amended_c8 rankWorstAudio vimeoFormats m8
